import Mathlib

/-!
# Verification of `validator/aggregation.py` (NDRP)

Shallow embedding of the aggregation core: severity extraction,
weight-table merging, penalty accumulation, score clamping and rating
derivation. Python dictionaries are modelled as association lists with
first-match lookup (Python dicts have unique keys, so first-match lookup
agrees with dict lookup); dict iteration order is the list order, which
matches Python insertion order. Python `int` is modelled as `Int`;
occurrence counts (`collections.Counter`) as `Nat`.
-/

namespace NDRP

/-- First-match association-list lookup, the model of Python dict lookup
(`d[k]`, `d.get(k)`, `k in d`). -/
def alookup {α : Type} (k : String) : List (String × α) → Option α
  | [] => none
  | (k', v) :: rest => if k' = k then some v else alookup k rest

/-- Model of an arbitrary Python value passed as a result item, recording
the three facets `_extract_severity` can observe: whether it is a
`Mapping` (and its string-keyed entries, values shown after `str`
conversion), whether it has a `severity` attribute (value after `str`
conversion), and whether it is itself a `str`. Any value outside the
three shapes is `⟨none, none, none⟩`-like (no facet set, or a mapping
without a "severity" entry). -/
structure ResultItem where
  mapping : Option (List (String × String))
  severityAttr : Option String
  stringVal : Option String
deriving DecidableEq, Repr

/-- `DEFAULT_SEVERITY_WEIGHTS` from `aggregation.py`. -/
def DEFAULT_SEVERITY_WEIGHTS : List (String × Int) :=
  [("critical", 50), ("high", 25), ("medium", 10), ("low", 5), ("info", 0)]

/-- `CRITICAL_SEVERITY` from `aggregation.py`. -/
def CRITICAL_SEVERITY : String := "critical"

/-- `UNKNOWN_SEVERITY_WEIGHT` from `aggregation.py`. -/
def UNKNOWN_SEVERITY_WEIGHT : Int := 10

/-- `RATING_THRESHOLDS` from `aggregation.py`. -/
def RATING_THRESHOLDS : List (String × Int) :=
  [("clean", 90), ("needs_attention", 60)]

/-- `MAX_SCORE` from `aggregation.py`. -/
def MAX_SCORE : Int := 100

/-- `_extract_severity` from `aggregation.py`: Mapping with a
"severity" key first, then a `severity` attribute, then a bare string,
else `"unknown"`. -/
def _extract_severity (result : ResultItem) : String :=
  match result.mapping.bind (alookup "severity") with
  | some v => v
  | none =>
    match result.severityAttr with
    | some v => v
    | none =>
      match result.stringVal with
      | some s => s
      | none => "unknown"

/-- `_rating_from_score` from `aggregation.py`. -/
def _rating_from_score (score : Int) (counts : List (String × Nat)) : String :=
  if (alookup "clean" RATING_THRESHOLDS).getD 0 ≤ score ∧
      (alookup CRITICAL_SEVERITY counts).getD 0 = 0 then
    "clean"
  else if (alookup "needs_attention" RATING_THRESHOLDS).getD 0 ≤ score then
    "needs_attention"
  else
    "unsafe"

/-- Python dict merge `{**d, **o}`: keys of `d` in order, values
overridden by `o` where present, then the keys of `o` not in `d`, in
`o`'s order. -/
def dictMerge (d o : List (String × Int)) : List (String × Int) :=
  d.map (fun kv => (kv.1, (alookup kv.1 o).getD kv.2)) ++
    o.filter (fun kv => (alookup kv.1 d).isNone)

/-- `weights.get(severity, UNKNOWN_SEVERITY_WEIGHT)` from line 106. -/
def weightFor (weights : List (String × Int)) (severity : String) : Int :=
  (alookup severity weights).getD UNKNOWN_SEVERITY_WEIGHT

/-- `Counter` increment `severity_counts[severity] += 1`: bump an
existing key in place, or append a new key with count 1. -/
def bumpCount (l : List (String × Nat)) (k : String) : List (String × Nat) :=
  match l with
  | [] => [(k, 1)]
  | (k', v) :: rest =>
    if k' = k then (k', v + 1) :: rest else (k', v) :: bumpCount rest k

/-- `defaultdict(int)` increment `penalty_by_severity[severity] += weight`. -/
def bumpPenalty (l : List (String × Int)) (k : String) (w : Int) :
    List (String × Int) :=
  match l with
  | [] => [(k, w)]
  | (k', v) :: rest =>
    if k' = k then (k', v + w) :: rest else (k', v) :: bumpPenalty rest k w

/-- The mutable loop state of `aggregate_validator_results`
(lines 97–110). -/
structure AggState where
  severity_counts : List (String × Nat)
  penalty_by_severity : List (String × Int)
  total_penalty : Int
deriving DecidableEq, Repr

/-- One iteration of the `for result in results` loop (lines 104–110). -/
def stepResult (weights : List (String × Int)) (st : AggState)
    (result : ResultItem) : AggState :=
  let severity := _extract_severity result
  let weight := weightFor weights severity
  { severity_counts := bumpCount st.severity_counts severity
    penalty_by_severity := bumpPenalty st.penalty_by_severity severity weight
    total_penalty := st.total_penalty + weight }

/-- `dict.setdefault(severity, 0)` applied for each key of `ks` in order
(lines 116–117). -/
def setdefaultZero (d : List (String × Nat)) (ks : List String) :
    List (String × Nat) :=
  ks.foldl (fun acc k => if (alookup k acc).isSome then acc else acc ++ [(k, 0)]) d

/-- The `penalties` sub-dict of the returned verdict. -/
structure Penalties where
  total_penalty : Int
  by_severity : List (String × Int)
  weights : List (String × Int)
  unknown_weight : Int
deriving DecidableEq, Repr

/-- The dict returned by `aggregate_validator_results`. -/
structure Verdict where
  hygiene_score : Int
  rating : String
  severity_counts : List (String × Nat)
  penalties : Penalties
  max_score : Int
deriving DecidableEq, Repr

/-- `aggregate_validator_results` from `aggregation.py` (lines 71–130).
`severity_weights = none` models the Python default `None`; note the
Python `severity_weights or {}` also maps an empty dict to `{}`, which
coincides with merging the empty override list. -/
def aggregate_validator_results (results : List ResultItem)
    (severity_weights : Option (List (String × Int))) : Verdict :=
  let weights := dictMerge DEFAULT_SEVERITY_WEIGHTS (severity_weights.getD [])
  let init : AggState :=
    { severity_counts := []
      penalty_by_severity := weights.map (fun kv => (kv.1, 0))
      total_penalty := 0 }
  let final := results.foldl (stepResult weights) init
  let hygiene_score := max 0 (MAX_SCORE - final.total_penalty)
  let rating := _rating_from_score hygiene_score final.severity_counts
  let severity_counts_output :=
    setdefaultZero final.severity_counts (weights.map Prod.fst)
  { hygiene_score := hygiene_score
    rating := rating
    severity_counts := severity_counts_output
    penalties :=
      { total_penalty := final.total_penalty
        by_severity := final.penalty_by_severity
        weights := weights
        unknown_weight := UNKNOWN_SEVERITY_WEIGHT }
    max_score := MAX_SCORE }

/-- Spec-side formula: the sum over the items of the weight of each
item's extracted severity, looked up with the fallback. Used to compare
the loop's accumulated `total_penalty` against the spec's closed form. -/
def totalWeight (weights : List (String × Int)) (results : List ResultItem) : Int :=
  (results.map (fun r => weightFor weights (_extract_severity r))).sum

/-- Number of items of `results` whose extracted severity is `k`. -/
def countSeverity (k : String) (results : List ResultItem) : Nat :=
  results.countP (fun r => _extract_severity r == k)

/-- Rank of a rating in the order clean > needs_attention > unsafe. -/
def ratingRank : String → Nat
  | "clean" => 2
  | "needs_attention" => 1
  | _ => 0

/-- The effective weight table of one call: defaults merged with the
(possibly absent) override table, line 95. -/
def effWeights (ow : Option (List (String × Int))) : List (String × Int) :=
  dictMerge DEFAULT_SEVERITY_WEIGHTS (ow.getD [])

/-- The loop state before the first iteration (lines 97–102). -/
def initState (weights : List (String × Int)) : AggState :=
  { severity_counts := []
    penalty_by_severity := weights.map (fun kv => (kv.1, 0))
    total_penalty := 0 }

/-- Output equality as Python `==` sees it: the dict components are
compared as finite maps, since Python dict equality ignores insertion
order. -/
def VerdictEquiv (v1 v2 : Verdict) : Prop :=
  v1.hygiene_score = v2.hygiene_score ∧
  v1.rating = v2.rating ∧
  (∀ k, alookup k v1.severity_counts = alookup k v2.severity_counts) ∧
  v1.penalties.total_penalty = v2.penalties.total_penalty ∧
  (∀ k, alookup k v1.penalties.by_severity = alookup k v2.penalties.by_severity) ∧
  v1.penalties.weights = v2.penalties.weights ∧
  v1.penalties.unknown_weight = v2.penalties.unknown_weight ∧
  v1.max_score = v2.max_score

theorem alookup_append {α : Type} (k : String) (l1 l2 : List (String × α)) :
    alookup k (l1 ++ l2) =
      match alookup k l1 with
      | some v => some v
      | none => alookup k l2 := by
  induction l1 with
  | nil => simp [alookup]
  | cons a rest ih =>
    obtain ⟨k', v⟩ := a
    by_cases h : k' = k <;> simp [alookup, h, ih]

theorem alookup_filter_key {α : Type} (p : String → Bool)
    (l : List (String × α)) (k : String) :
    alookup k (l.filter (fun kv => p kv.1)) =
      if p k then alookup k l else none := by
  induction l with
  | nil => simp [alookup]
  | cons a rest ih =>
    obtain ⟨k', v⟩ := a
    by_cases hk : k' = k
    · subst hk
      by_cases hp : p k' <;> simp [alookup, hp, ih]
    · by_cases hp : p k' <;> simp [alookup, hp, hk, ih]

theorem alookup_map_override (d o : List (String × Int)) (k : String) :
    alookup k (d.map (fun kv => (kv.1, (alookup kv.1 o).getD kv.2))) =
      (alookup k d).map (fun v => (alookup k o).getD v) := by
  induction d with
  | nil => simp [alookup]
  | cons a rest ih =>
    obtain ⟨k', v⟩ := a
    by_cases h : k' = k <;> simp [alookup, h, ih]

theorem alookup_map_zero (l : List (String × Int)) (k : String) :
    alookup k (l.map (fun kv => (kv.1, (0 : Int)))) =
      if (alookup k l).isSome then some 0 else none := by
  induction l with
  | nil => simp [alookup]
  | cons a rest ih =>
    obtain ⟨k', v⟩ := a
    by_cases h : k' = k <;> simp [alookup, h, ih]

theorem alookup_isSome_iff_mem_keys {α : Type} (l : List (String × α))
    (k : String) : (alookup k l).isSome ↔ k ∈ l.map Prod.fst := by
  induction l with
  | nil => simp [alookup]
  | cons a rest ih =>
    obtain ⟨k', v⟩ := a
    by_cases h : k' = k
    · subst h
      simp [alookup]
    · have hne : ¬k = k' := fun hh => h hh.symm
      simp [alookup, h, ih, hne]

theorem mem_of_alookup_eq_some {α : Type} {l : List (String × α)} {k : String}
    {v : α} (h : alookup k l = some v) : (k, v) ∈ l := by
  induction l with
  | nil => simp [alookup] at h
  | cons a rest ih =>
    obtain ⟨k', v'⟩ := a
    by_cases hk : k' = k
    · subst hk
      simp [alookup] at h
      simp [h]
    · simp [alookup, hk] at h
      simp [ih h]

theorem alookup_dictMerge (d o : List (String × Int)) (k : String) :
    alookup k (dictMerge d o) =
      match alookup k o with
      | some v => some v
      | none => alookup k d := by
  rw [dictMerge, alookup_append, alookup_map_override,
    alookup_filter_key (fun x => (alookup x d).isNone)]
  cases hd : alookup k d <;> cases ho : alookup k o <;> simp [hd, ho]

theorem alookup_bumpCount_self (l : List (String × Nat)) (k : String) :
    alookup k (bumpCount l k) = some ((alookup k l).getD 0 + 1) := by
  induction l with
  | nil => simp [bumpCount, alookup]
  | cons a rest ih =>
    obtain ⟨k', v⟩ := a
    by_cases h : k' = k <;> simp [bumpCount, alookup, h, ih]

theorem alookup_bumpCount_ne (l : List (String × Nat)) {k j : String}
    (h : j ≠ k) : alookup j (bumpCount l k) = alookup j l := by
  induction l with
  | nil =>
    have hne : ¬k = j := fun hh => h hh.symm
    simp [bumpCount, alookup, hne]
  | cons a rest ih =>
    obtain ⟨k', v⟩ := a
    by_cases hk : k' = k <;> by_cases hj : k' = j <;>
      simp_all [bumpCount, alookup]

theorem alookup_bumpPenalty_self (l : List (String × Int)) (k : String)
    (w : Int) : alookup k (bumpPenalty l k w) = some ((alookup k l).getD 0 + w) := by
  induction l with
  | nil => simp [bumpPenalty, alookup]
  | cons a rest ih =>
    obtain ⟨k', v⟩ := a
    by_cases h : k' = k <;> simp [bumpPenalty, alookup, h, ih]

theorem alookup_bumpPenalty_ne (l : List (String × Int)) {k j : String}
    (w : Int) (h : j ≠ k) : alookup j (bumpPenalty l k w) = alookup j l := by
  induction l with
  | nil =>
    have hne : ¬k = j := fun hh => h hh.symm
    simp [bumpPenalty, alookup, hne]
  | cons a rest ih =>
    obtain ⟨k', v⟩ := a
    by_cases hk : k' = k <;> by_cases hj : k' = j <;>
      simp_all [bumpPenalty, alookup]

theorem foldl_total_penalty (w : List (String × Int)) (results : List ResultItem) :
    ∀ st : AggState,
      (results.foldl (stepResult w) st).total_penalty =
        st.total_penalty + totalWeight w results := by
  induction results with
  | nil => intro st; simp [totalWeight]
  | cons r rs ih =>
    intro st
    simp only [List.foldl_cons, ih, totalWeight, List.map_cons, List.sum_cons,
      stepResult]
    ring

theorem countSeverity_cons (k : String) (r : ResultItem) (rs : List ResultItem) :
    countSeverity k (r :: rs) =
      countSeverity k rs + if _extract_severity r = k then 1 else 0 := by
  simp [countSeverity, List.countP_cons]

theorem foldl_counts_alookup (w : List (String × Int))
    (results : List ResultItem) :
    ∀ (st : AggState) (k : String),
      alookup k (results.foldl (stepResult w) st).severity_counts =
        if countSeverity k results = 0 then alookup k st.severity_counts
        else some ((alookup k st.severity_counts).getD 0 + countSeverity k results) := by
  induction results with
  | nil => intro st k; simp [countSeverity]
  | cons r rs ih =>
    intro st k
    rw [List.foldl_cons, ih, countSeverity_cons]
    by_cases h : _extract_severity r = k
    · have hst : alookup k (stepResult w st r).severity_counts =
          some ((alookup k st.severity_counts).getD 0 + 1) := by
        simp only [stepResult, h]
        exact alookup_bumpCount_self _ _
      by_cases h0 : countSeverity k rs = 0 <;> simp [h0, h, hst] <;> omega
    · have hst : alookup k (stepResult w st r).severity_counts =
          alookup k st.severity_counts := by
        simp only [stepResult]
        exact alookup_bumpCount_ne _ (fun hh => h hh.symm)
      by_cases h0 : countSeverity k rs = 0 <;> simp [h0, h, hst]

theorem foldl_pbs_alookup (w : List (String × Int))
    (results : List ResultItem) :
    ∀ (st : AggState) (k : String),
      alookup k (results.foldl (stepResult w) st).penalty_by_severity =
        if countSeverity k results = 0 then alookup k st.penalty_by_severity
        else some ((alookup k st.penalty_by_severity).getD 0 +
          (countSeverity k results : Int) * weightFor w k) := by
  induction results with
  | nil => intro st k; simp [countSeverity]
  | cons r rs ih =>
    intro st k
    rw [List.foldl_cons, ih, countSeverity_cons]
    by_cases h : _extract_severity r = k
    · have hst : alookup k (stepResult w st r).penalty_by_severity =
          some ((alookup k st.penalty_by_severity).getD 0 + weightFor w k) := by
        simp only [stepResult, h]
        exact alookup_bumpPenalty_self _ _ _
      by_cases h0 : countSeverity k rs = 0 <;> simp [h0, h, hst] <;> push_cast <;> ring
    · have hst : alookup k (stepResult w st r).penalty_by_severity =
          alookup k st.penalty_by_severity := by
        simp only [stepResult]
        exact alookup_bumpPenalty_ne _ _ (fun hh => h hh.symm)
      by_cases h0 : countSeverity k rs = 0 <;> simp [h0, h, hst]

theorem alookup_setdefaultZero (ks : List String) :
    ∀ (d : List (String × Nat)) (k : String),
      alookup k (setdefaultZero d ks) =
        match alookup k d with
        | some v => some v
        | none => if k ∈ ks then some 0 else none := by
  induction ks with
  | nil =>
    intro d k
    cases hd : alookup k d <;> simp [setdefaultZero, hd]
  | cons k0 ks ih =>
    intro d k
    have hstep : setdefaultZero d (k0 :: ks) =
        setdefaultZero (if (alookup k0 d).isSome then d else d ++ [(k0, 0)]) ks := by
      simp only [setdefaultZero, List.foldl_cons]
    rw [hstep, ih]
    by_cases hs : (alookup k0 d).isSome = true
    · rw [if_pos hs]
      cases hd : alookup k d with
      | some v => simp [hd]
      | none =>
        have hne : ¬k = k0 := by
          intro hh
          rw [← hh, hd] at hs
          simp at hs
        simp [hd, hne]
    · rw [if_neg hs, alookup_append]
      cases hd : alookup k d with
      | some v => simp [hd]
      | none =>
        by_cases hk : k0 = k
        · subst hk
          simp [hd, alookup]
        · have hne : ¬k = k0 := fun hh => hk hh.symm
          simp [hd, alookup, hk, hne]

theorem agg_severity_counts_def (results : List ResultItem)
    (ow : Option (List (String × Int))) :
    (aggregate_validator_results results ow).severity_counts =
      setdefaultZero
        ((results.foldl (stepResult (effWeights ow))
          (initState (effWeights ow))).severity_counts)
        ((effWeights ow).map Prod.fst) := rfl

theorem agg_total_def (results : List ResultItem)
    (ow : Option (List (String × Int))) :
    (aggregate_validator_results results ow).penalties.total_penalty =
      (results.foldl (stepResult (effWeights ow))
        (initState (effWeights ow))).total_penalty := rfl

theorem agg_score_def (results : List ResultItem)
    (ow : Option (List (String × Int))) :
    (aggregate_validator_results results ow).hygiene_score =
      max 0 (MAX_SCORE - (results.foldl (stepResult (effWeights ow))
        (initState (effWeights ow))).total_penalty) := rfl

theorem agg_rating_def (results : List ResultItem)
    (ow : Option (List (String × Int))) :
    (aggregate_validator_results results ow).rating =
      _rating_from_score
        (max 0 (MAX_SCORE - (results.foldl (stepResult (effWeights ow))
          (initState (effWeights ow))).total_penalty))
        ((results.foldl (stepResult (effWeights ow))
          (initState (effWeights ow))).severity_counts) := rfl

theorem agg_pbs_def (results : List ResultItem)
    (ow : Option (List (String × Int))) :
    (aggregate_validator_results results ow).penalties.by_severity =
      (results.foldl (stepResult (effWeights ow))
        (initState (effWeights ow))).penalty_by_severity := rfl

theorem agg_weights_def (results : List ResultItem)
    (ow : Option (List (String × Int))) :
    (aggregate_validator_results results ow).penalties.weights =
      effWeights ow := rfl

theorem agg_total_penalty (results : List ResultItem)
    (ow : Option (List (String × Int))) :
    (aggregate_validator_results results ow).penalties.total_penalty =
      totalWeight (effWeights ow) results := by
  rw [agg_total_def, foldl_total_penalty]
  simp [initState]

theorem agg_hygiene_score (results : List ResultItem)
    (ow : Option (List (String × Int))) :
    (aggregate_validator_results results ow).hygiene_score =
      max 0 (100 - totalWeight (effWeights ow) results) := by
  rw [agg_score_def, foldl_total_penalty]
  simp [initState, MAX_SCORE]

theorem agg_counts_alookup (results : List ResultItem)
    (ow : Option (List (String × Int))) (k : String) :
    alookup k (aggregate_validator_results results ow).severity_counts =
      if countSeverity k results = 0 then
        (if (alookup k (effWeights ow)).isSome then some 0 else none)
      else some (countSeverity k results) := by
  rw [agg_severity_counts_def, alookup_setdefaultZero, foldl_counts_alookup]
  have hinit : alookup k (initState (effWeights ow)).severity_counts = none := rfl
  rw [hinit]
  have hiff := alookup_isSome_iff_mem_keys (effWeights ow) k
  by_cases h0 : countSeverity k results = 0 <;>
    by_cases hIs : (alookup k (effWeights ow)).isSome <;>
      simp [h0, hIs, ← hiff]

theorem agg_pbs_alookup (results : List ResultItem)
    (ow : Option (List (String × Int))) (k : String) :
    alookup k (aggregate_validator_results results ow).penalties.by_severity =
      if countSeverity k results = 0 then
        (if (alookup k (effWeights ow)).isSome then some 0 else none)
      else some ((countSeverity k results : Int) * weightFor (effWeights ow) k) := by
  rw [agg_pbs_def, foldl_pbs_alookup]
  have hinitp : alookup k (initState (effWeights ow)).penalty_by_severity =
      if (alookup k (effWeights ow)).isSome then some 0 else none := by
    rw [show (initState (effWeights ow)).penalty_by_severity =
      (effWeights ow).map (fun kv => (kv.1, 0)) from rfl, alookup_map_zero]
  rw [hinitp]
  by_cases h0 : countSeverity k results = 0 <;>
    by_cases hIs : (alookup k (effWeights ow)).isSome <;>
      simp [h0, hIs]

theorem agg_crit_count (results : List ResultItem)
    (ow : Option (List (String × Int))) (k : String) :
    (alookup k ((results.foldl (stepResult (effWeights ow))
        (initState (effWeights ow))).severity_counts)).getD 0 =
      countSeverity k results := by
  rw [foldl_counts_alookup]
  by_cases h0 : countSeverity k results = 0 <;>
    simp [h0, initState, alookup]

theorem agg_rating_eq (results : List ResultItem)
    (ow : Option (List (String × Int))) :
    (aggregate_validator_results results ow).rating =
      if 90 ≤ (aggregate_validator_results results ow).hygiene_score ∧
          countSeverity CRITICAL_SEVERITY results = 0 then "clean"
      else if 60 ≤ (aggregate_validator_results results ow).hygiene_score then
        "needs_attention"
      else "unsafe" := by
  have h90 : (alookup "clean" RATING_THRESHOLDS).getD 0 = 90 := by decide
  have h60 : (alookup "needs_attention" RATING_THRESHOLDS).getD 0 = 60 := by decide
  rw [agg_rating_def, _rating_from_score, h90, h60, agg_crit_count, agg_score_def]

theorem totalWeight_append (w : List (String × Int)) (l1 l2 : List ResultItem) :
    totalWeight w (l1 ++ l2) = totalWeight w l1 + totalWeight w l2 := by
  simp [totalWeight]

theorem countSeverity_append (k : String) (l1 l2 : List ResultItem) :
    countSeverity k (l1 ++ l2) = countSeverity k l1 + countSeverity k l2 := by
  simp [countSeverity, List.countP_append]

theorem default_weights_nonneg :
    ∀ kv ∈ DEFAULT_SEVERITY_WEIGHTS, 0 ≤ kv.2 := by decide

theorem weightFor_nonneg {o : List (String × Int)} (h : ∀ kv ∈ o, 0 ≤ kv.2)
    (k : String) : 0 ≤ weightFor (dictMerge DEFAULT_SEVERITY_WEIGHTS o) k := by
  unfold weightFor
  cases hl : alookup k (dictMerge DEFAULT_SEVERITY_WEIGHTS o) with
  | none => simp [UNKNOWN_SEVERITY_WEIGHT]
  | some v =>
    simp only [Option.getD_some]
    rw [alookup_dictMerge] at hl
    cases ho : alookup k o with
    | some u =>
      rw [ho] at hl
      simp only [Option.some.injEq] at hl
      subst hl
      exact h _ (mem_of_alookup_eq_some ho)
    | none =>
      rw [ho] at hl
      exact default_weights_nonneg _ (mem_of_alookup_eq_some hl)

theorem totalWeight_nonneg {o : List (String × Int)} (h : ∀ kv ∈ o, 0 ≤ kv.2)
    (results : List ResultItem) :
    0 ≤ totalWeight (dictMerge DEFAULT_SEVERITY_WEIGHTS o) results := by
  refine List.sum_nonneg ?_
  intro x hx
  rw [List.mem_map] at hx
  obtain ⟨r, _, hr⟩ := hx
  rw [← hr]
  exact weightFor_nonneg h _

/-- C1: for every finite sequence of result items and every (possibly
absent) override table, the returned `hygiene_score` equals
`max 0 (100 - total)` where `total` is the sum over the items of the
weight of each item's extracted severity (looked up in the merged table,
with the fixed fallback weight for absent labels, see `weightFor` and
`totalWeight`), and `penalties.total_penalty` equals that same sum. -/
theorem score_is_clamped_weight_sum (results : List ResultItem)
    (ow : Option (List (String × Int))) :
    (aggregate_validator_results results ow).hygiene_score =
      max 0 (100 - totalWeight (effWeights ow) results) ∧
    (aggregate_validator_results results ow).penalties.total_penalty =
      totalWeight (effWeights ow) results :=
  ⟨agg_hygiene_score results ow, agg_total_penalty results ow⟩

/-- C2 counterexample: the claim asserts that a single item of severity
"critical" under the default weights yields rating "needs_attention";
the code yields score 50, which is below the needs_attention threshold
60, so the rating is "unsafe". -/
theorem single_critical_rating_counterexample :
    (aggregate_validator_results [⟨some [("severity", "critical")], none, none⟩]
      none).hygiene_score = 50 ∧
    (aggregate_validator_results [⟨some [("severity", "critical")], none, none⟩]
      none).rating = "unsafe" ∧
    (aggregate_validator_results [⟨some [("severity", "critical")], none, none⟩]
      none).rating ≠ "needs_attention" := by
  refine ⟨by decide, by decide, by decide⟩

/-- C2 (amended): the rating is derived from the hygiene score and the
critical-severity occurrence count by the fixed first-match rule
("clean" iff score ≥ 90 and no critical finding, else "needs_attention"
iff score ≥ 60, else "unsafe"); in particular a single item with
severity "critical" under the default weights yields score 50 and
rating "unsafe" (not "needs_attention", and never "clean"). -/
theorem rating_first_match_rule :
    (∀ (results : List ResultItem) (ow : Option (List (String × Int))),
      (aggregate_validator_results results ow).rating =
        if 90 ≤ (aggregate_validator_results results ow).hygiene_score ∧
            countSeverity "critical" results = 0 then "clean"
        else if 60 ≤ (aggregate_validator_results results ow).hygiene_score then
          "needs_attention"
        else "unsafe") ∧
    (aggregate_validator_results [⟨some [("severity", "critical")], none, none⟩]
      none).hygiene_score = 50 ∧
    (aggregate_validator_results [⟨some [("severity", "critical")], none, none⟩]
      none).rating = "unsafe" := by
  refine ⟨?_, by decide, by decide⟩
  intro results ow
  have h := agg_rating_eq results ow
  simpa [CRITICAL_SEVERITY] using h

/-- C3: severity extraction is a total function (total by construction
in this embedding) resolving in a fixed first-match order: a mapping
containing a "severity" entry wins, else a `severity` attribute, else
the bare string itself, else the literal "unknown". -/
theorem extract_severity_resolution_order (r : ResultItem) :
    (∀ es v, r.mapping = some es → alookup "severity" es = some v →
      _extract_severity r = v) ∧
    (r.mapping.bind (alookup "severity") = none →
      ∀ v, r.severityAttr = some v → _extract_severity r = v) ∧
    (r.mapping.bind (alookup "severity") = none → r.severityAttr = none →
      ∀ s, r.stringVal = some s → _extract_severity r = s) ∧
    (r.mapping.bind (alookup "severity") = none → r.severityAttr = none →
      r.stringVal = none → _extract_severity r = "unknown") := by
  refine ⟨?_, ?_, ?_, ?_⟩
  · intro es v hm hv
    simp [_extract_severity, hm, hv]
  · intro hb v ha
    simp [_extract_severity, hb, ha]
  · intro hb ha s hs
    simp [_extract_severity, hb, ha, hs]
  · intro hb ha hs
    simp [_extract_severity, hb, ha, hs]

/-- C3 witness: the four resolution cases exercised at concrete items. -/
theorem extract_severity_resolution_order_witness :
    _extract_severity ⟨some [("severity", "high")], some "medium", some "low"⟩ =
      "high" ∧
    _extract_severity ⟨some [("other", "x")], some "medium", some "low"⟩ =
      "medium" ∧
    _extract_severity ⟨none, none, some "low"⟩ = "low" ∧
    _extract_severity ⟨none, none, none⟩ = "unknown" :=
  ⟨(extract_severity_resolution_order
      ⟨some [("severity", "high")], some "medium", some "low"⟩).1
      [("severity", "high")] "high" rfl (by decide),
   (extract_severity_resolution_order
      ⟨some [("other", "x")], some "medium", some "low"⟩).2.1
      (by decide) "medium" rfl,
   (extract_severity_resolution_order ⟨none, none, some "low"⟩).2.2.1
      rfl rfl "low" rfl,
   (extract_severity_resolution_order ⟨none, none, none⟩).2.2.2 rfl rfl rfl⟩

/-- C4: the effective table is the key-wise merge of the default table
(override wins, unspecified defaults survive), the default table is
`{critical:50, high:25, medium:10, low:5, info:0}`, and a label absent
from the merged table gets the fixed fallback weight 10 regardless of
the override contents. -/
theorem effective_weights_merge_and_fallback (o : List (String × Int))
    (k : String) :
    (alookup k (dictMerge DEFAULT_SEVERITY_WEIGHTS o) =
      match alookup k o with
      | some v => some v
      | none => alookup k DEFAULT_SEVERITY_WEIGHTS) ∧
    (alookup k (dictMerge DEFAULT_SEVERITY_WEIGHTS o) = none →
      weightFor (dictMerge DEFAULT_SEVERITY_WEIGHTS o) k = 10) ∧
    alookup "critical" DEFAULT_SEVERITY_WEIGHTS = some 50 ∧
    alookup "high" DEFAULT_SEVERITY_WEIGHTS = some 25 ∧
    alookup "medium" DEFAULT_SEVERITY_WEIGHTS = some 10 ∧
    alookup "low" DEFAULT_SEVERITY_WEIGHTS = some 5 ∧
    alookup "info" DEFAULT_SEVERITY_WEIGHTS = some 0 := by
  refine ⟨alookup_dictMerge _ _ _, ?_, by decide, by decide, by decide,
    by decide, by decide⟩
  intro h
  simp [weightFor, h, UNKNOWN_SEVERITY_WEIGHT]

/-- C4 witness: overriding "medium" leaves the fallback weight of an
absent label ("custom") at 10. -/
theorem effective_weights_merge_and_fallback_witness :
    alookup "custom" (dictMerge DEFAULT_SEVERITY_WEIGHTS [("medium", 42)]) =
      none ∧
    weightFor (dictMerge DEFAULT_SEVERITY_WEIGHTS [("medium", 42)]) "custom" =
      10 :=
  ⟨by decide,
   (effective_weights_merge_and_fallback [("medium", 42)] "custom").2.1
     (by decide)⟩

/-- C5: the returned `hygiene_score` is never below 0, for any inputs
whatsoever; and it never exceeds 100 for any override table of the
spec's data model (severity weights are non-negative integers, §3). -/
theorem hygiene_score_bounds (results : List ResultItem)
    (ow : Option (List (String × Int))) :
    0 ≤ (aggregate_validator_results results ow).hygiene_score ∧
    ((∀ kv ∈ ow.getD [], 0 ≤ kv.2) →
      (aggregate_validator_results results ow).hygiene_score ≤ 100) := by
  constructor
  · rw [agg_hygiene_score]
    exact le_max_left _ _
  · intro h
    rw [agg_hygiene_score]
    have hnn := totalWeight_nonneg h results
    have heff : effWeights ow = dictMerge DEFAULT_SEVERITY_WEIGHTS (ow.getD []) :=
      rfl
    rw [heff]
    refine max_le (by norm_num) ?_
    omega

/-- C5 witness: three critical findings (total penalty 150) with an
override table still give a score inside [0, 100]. -/
theorem hygiene_score_bounds_witness :
    0 ≤ (aggregate_validator_results
      [⟨none, none, some "critical"⟩, ⟨none, none, some "critical"⟩,
       ⟨none, none, some "critical"⟩] (some [("low", 7)])).hygiene_score ∧
    (aggregate_validator_results
      [⟨none, none, some "critical"⟩, ⟨none, none, some "critical"⟩,
       ⟨none, none, some "critical"⟩] (some [("low", 7)])).hygiene_score ≤ 100 :=
  ⟨(hygiene_score_bounds
      [⟨none, none, some "critical"⟩, ⟨none, none, some "critical"⟩,
       ⟨none, none, some "critical"⟩] (some [("low", 7)])).1,
   (hygiene_score_bounds
      [⟨none, none, some "critical"⟩, ⟨none, none, some "critical"⟩,
       ⟨none, none, some "critical"⟩] (some [("low", 7)])).2 (by decide)⟩

/-- C6: aggregation is commutative over the input sequence — for any two
permutations of the same multiset of result items (same override table)
the whole Verdict is identical, where the dict-valued components are
compared as finite maps exactly as Python `==` compares dicts. -/
theorem aggregation_perm_invariant (l1 l2 : List ResultItem)
    (ow : Option (List (String × Int))) (h : l1.Perm l2) :
    VerdictEquiv (aggregate_validator_results l1 ow)
      (aggregate_validator_results l2 ow) := by
  have hcount : ∀ k, countSeverity k l1 = countSeverity k l2 := by
    intro k
    exact h.countP_eq _
  have htot : totalWeight (effWeights ow) l1 = totalWeight (effWeights ow) l2 := by
    unfold totalWeight
    exact (h.map _).sum_eq
  refine ⟨?_, ?_, ?_, ?_, ?_, rfl, rfl, rfl⟩
  · rw [agg_hygiene_score, agg_hygiene_score, htot]
  · rw [agg_rating_eq, agg_rating_eq, agg_hygiene_score, agg_hygiene_score,
      htot, hcount]
  · intro k
    rw [agg_counts_alookup, agg_counts_alookup, hcount]
  · rw [agg_total_penalty, agg_total_penalty, htot]
  · intro k
    rw [agg_pbs_alookup, agg_pbs_alookup, hcount]

/-- C6 witness: swapping two items leaves the Verdict unchanged. -/
theorem aggregation_perm_invariant_witness :
    VerdictEquiv
      (aggregate_validator_results
        [⟨none, none, some "high"⟩, ⟨none, none, some "low"⟩] none)
      (aggregate_validator_results
        [⟨none, none, some "low"⟩, ⟨none, none, some "high"⟩] none) :=
  aggregation_perm_invariant
    [⟨none, none, some "high"⟩, ⟨none, none, some "low"⟩]
    [⟨none, none, some "low"⟩, ⟨none, none, some "high"⟩] none
    (List.Perm.swap _ _ _)

theorem ratingRank_rule_mono {a b : Int} {c c' : Nat} (hab : a ≤ b)
    (hcc : c ≤ c') :
    ratingRank (if 90 ≤ a ∧ c' = 0 then "clean"
      else if 60 ≤ a then "needs_attention" else "unsafe") ≤
    ratingRank (if 90 ≤ b ∧ c = 0 then "clean"
      else if 60 ≤ b then "needs_attention" else "unsafe") := by
  split_ifs <;> first | decide | (exfalso; omega)

/-- C7: with the spec's non-negative weights, appending any result item
never increases the hygiene score and never moves the rating toward
"clean" in the order clean > needs_attention > unsafe. -/
theorem aggregation_monotone (results : List ResultItem) (r : ResultItem)
    (ow : Option (List (String × Int)))
    (h : ∀ kv ∈ ow.getD [], 0 ≤ kv.2) :
    (aggregate_validator_results (results ++ [r]) ow).hygiene_score ≤
      (aggregate_validator_results results ow).hygiene_score ∧
    ratingRank (aggregate_validator_results (results ++ [r]) ow).rating ≤
      ratingRank (aggregate_validator_results results ow).rating := by
  have hw : 0 ≤ weightFor (effWeights ow) (_extract_severity r) :=
    weightFor_nonneg h _
  have htot : totalWeight (effWeights ow) (results ++ [r]) =
      totalWeight (effWeights ow) results +
        weightFor (effWeights ow) (_extract_severity r) := by
    rw [totalWeight_append]
    simp [totalWeight]
  have hscore : (aggregate_validator_results (results ++ [r]) ow).hygiene_score ≤
      (aggregate_validator_results results ow).hygiene_score := by
    rw [agg_hygiene_score, agg_hygiene_score, htot]
    have hsub : 100 - (totalWeight (effWeights ow) results +
        weightFor (effWeights ow) (_extract_severity r)) ≤
        100 - totalWeight (effWeights ow) results := by omega
    exact max_le_max le_rfl hsub
  have hcrit : countSeverity CRITICAL_SEVERITY results ≤
      countSeverity CRITICAL_SEVERITY (results ++ [r]) := by
    rw [countSeverity_append]
    omega
  refine ⟨hscore, ?_⟩
  rw [agg_rating_eq, agg_rating_eq]
  exact ratingRank_rule_mono hscore hcrit

/-- C7 witness: appending a critical finding to a single high finding
(with an override for "high") lowers the score and the rating rank. -/
theorem aggregation_monotone_witness :
    (aggregate_validator_results
      [⟨none, none, some "high"⟩, ⟨none, none, some "critical"⟩]
      (some [("high", 20)])).hygiene_score ≤
      (aggregate_validator_results [⟨none, none, some "high"⟩]
        (some [("high", 20)])).hygiene_score ∧
    ratingRank (aggregate_validator_results
      [⟨none, none, some "high"⟩, ⟨none, none, some "critical"⟩]
      (some [("high", 20)])).rating ≤
      ratingRank (aggregate_validator_results [⟨none, none, some "high"⟩]
        (some [("high", 20)])).rating :=
  aggregation_monotone [⟨none, none, some "high"⟩]
    ⟨none, none, some "critical"⟩ (some [("high", 20)]) (by decide)

/-- C8: aggregating the empty sequence with no override table yields
score 100, rating "clean", and a zero count for every label of the
default weight table; and the function is total — in this embedding it
is a Lean function defined on every input, witnessed here by the
`max_score` field being 100 on arbitrary inputs. -/
theorem empty_input_clean :
    (aggregate_validator_results [] none).hygiene_score = 100 ∧
    (aggregate_validator_results [] none).rating = "clean" ∧
    alookup "critical"
      (aggregate_validator_results [] none).severity_counts = some 0 ∧
    alookup "high" (aggregate_validator_results [] none).severity_counts =
      some 0 ∧
    alookup "medium" (aggregate_validator_results [] none).severity_counts =
      some 0 ∧
    alookup "low" (aggregate_validator_results [] none).severity_counts =
      some 0 ∧
    alookup "info" (aggregate_validator_results [] none).severity_counts =
      some 0 ∧
    (∀ (results : List ResultItem) (ow : Option (List (String × Int))),
      (aggregate_validator_results results ow).max_score = 100) := by
  refine ⟨by decide, by decide, by decide, by decide, by decide, by decide,
    by decide, ?_⟩
  intro results ow
  rfl

/-- C9: `severity_counts` maps exactly the union of the effective
weight-table keys and the observed labels — an observed label maps to
its occurrence count, an unobserved weight-table key maps to 0, and any
other label is absent; hence the key set is a superset of the
weight-table keys. -/
theorem severity_counts_union_characterization (results : List ResultItem)
    (ow : Option (List (String × Int))) (k : String) :
    alookup k (aggregate_validator_results results ow).severity_counts =
      (if countSeverity k results ≠ 0 then some (countSeverity k results)
       else if (alookup k (effWeights ow)).isSome then some 0 else none) ∧
    ((alookup k (effWeights ow)).isSome →
      (alookup k
        (aggregate_validator_results results ow).severity_counts).isSome) := by
  have hc := agg_counts_alookup results ow k
  constructor
  · rw [hc]
    by_cases h0 : countSeverity k results = 0 <;> simp [h0]
  · intro hIs
    rw [hc]
    by_cases h0 : countSeverity k results = 0 <;> simp [h0, hIs]

/-- C9 witness: the unobserved default label "info" is still present
with a zero count. -/
theorem severity_counts_union_characterization_witness :
    (alookup "info" (effWeights none)).isSome = true ∧
    (alookup "info" (aggregate_validator_results
      [⟨some [("severity", "custom")], none, none⟩]
      none).severity_counts).isSome = true :=
  ⟨by decide,
   (severity_counts_union_characterization
      [⟨some [("severity", "custom")], none, none⟩] none "info").2 (by decide)⟩

/-- C10: an item matching none of the three accepted shapes is counted
under the label "unknown"; that label is absent from the default table,
so under default weights each such item is charged the fallback weight
10 (and lowers the score accordingly), while an override table that
defines a key "unknown" makes that weight apply instead. -/
theorem unrecognized_item_fallback (r : ResultItem)
    (hm : r.mapping.bind (alookup "severity") = none)
    (ha : r.severityAttr = none) (hs : r.stringVal = none) :
    _extract_severity r = "unknown" ∧
    alookup "unknown" DEFAULT_SEVERITY_WEIGHTS = none ∧
    (∀ results : List ResultItem,
      (aggregate_validator_results (results ++ [r])
          none).penalties.total_penalty =
        (aggregate_validator_results results none).penalties.total_penalty +
          10 ∧
      (aggregate_validator_results (results ++ [r]) none).hygiene_score =
        max 0 (100 -
          ((aggregate_validator_results results none).penalties.total_penalty +
            10)) ∧
      alookup "unknown"
        (aggregate_validator_results (results ++ [r]) none).severity_counts =
        some (countSeverity "unknown" results + 1)) ∧
    (∀ (o : List (String × Int)) (w : Int), alookup "unknown" o = some w →
      ∀ results : List ResultItem,
        (aggregate_validator_results (results ++ [r])
            (some o)).penalties.total_penalty =
          (aggregate_validator_results results
            (some o)).penalties.total_penalty + w) := by
  have hx : _extract_severity r = "unknown" := by
    simp [_extract_severity, hm, ha, hs]
  refine ⟨hx, by decide, ?_, ?_⟩
  · intro results
    have hwu : weightFor (effWeights none) "unknown" = 10 := by decide
    have htot : totalWeight (effWeights none) (results ++ [r]) =
        totalWeight (effWeights none) results + 10 := by
      rw [totalWeight_append]
      simp [totalWeight, hx, hwu]
    refine ⟨?_, ?_, ?_⟩
    · rw [agg_total_penalty, agg_total_penalty, htot]
    · rw [agg_hygiene_score, agg_total_penalty, htot]
    · rw [agg_counts_alookup]
      have hcnt : countSeverity "unknown" (results ++ [r]) =
          countSeverity "unknown" results + 1 := by
        rw [countSeverity_append]
        simp [countSeverity, List.countP_cons, hx]
      rw [hcnt]
      simp
  · intro o w hwo results
    have hlu : alookup "unknown" (effWeights (some o)) = some w := by
      show alookup "unknown" (dictMerge DEFAULT_SEVERITY_WEIGHTS o) = some w
      rw [alookup_dictMerge, hwo]
    have hwu : weightFor (effWeights (some o)) "unknown" = w := by
      simp [weightFor, hlu]
    have htot : totalWeight (effWeights (some o)) (results ++ [r]) =
        totalWeight (effWeights (some o)) results + w := by
      rw [totalWeight_append]
      simp [totalWeight, hx, hwu]
    rw [agg_total_penalty, agg_total_penalty, htot]

/-- C10 witness: the shapeless item `⟨none, none, none⟩` is charged 10
under default weights and 3 when the override defines "unknown" as 3. -/
theorem unrecognized_item_fallback_witness :
    _extract_severity ⟨none, none, none⟩ = "unknown" ∧
    (aggregate_validator_results [⟨none, none, none⟩]
        none).penalties.total_penalty =
      (aggregate_validator_results [] none).penalties.total_penalty + 10 ∧
    (aggregate_validator_results [⟨none, none, none⟩]
        (some [("unknown", 3)])).penalties.total_penalty =
      (aggregate_validator_results []
        (some [("unknown", 3)])).penalties.total_penalty + 3 := by
  have h := unrecognized_item_fallback ⟨none, none, none⟩ rfl rfl rfl
  exact ⟨h.1, (h.2.2.1 []).1, h.2.2.2 [("unknown", 3)] 3 (by decide) []⟩

end NDRP
